import Mathlib

/-!
Verification of the N0rth-Star detection-and-scoring pipeline.

Shallow embedding of the core pipeline of the repository:
  * src/ml/detectors.py   (leak detector, secret masking, dedup)
  * src/ml/pipeline.py    (keyword heuristics, sector override, composite
                           scorer, category decision, alert assembly)
  * src/ml/infer.py       (top-sector selection)
  * src/ml/cve_enricher.py (randomised CVE severity enrichment)
  * src/backend/app/pipeline_store.py (content-hash ingestion gate)

Modelling conventions:
  * Text is `List Char` (`Str` below); Python string slicing maps to
    `List.take` / `List.drop`.
  * Python floats are modelled by `ℚ`: every arithmetic operation of the
    embedded code (addition, multiplication by rational literals, `min`,
    `max`) is exact, and the verified claims are about branch structure and
    bounds, not about rounding.
  * The statistical classifiers, the regex engine and the global random
    generator are external inputs to the embedded functions: classifier
    outputs, regex match lists and random draws are explicit parameters,
    and everything the Python code computes from them is embedded.
-/

abbrev Str := List Char

/-- Python `s.lower()` restricted to the ASCII texts handled here. -/
def lowerStr (s : Str) : Str := s.map Char.toLower

/-- Python substring test `sub in t` (`True` for the empty needle). -/
def subOccurs (sub : Str) : Str → Bool
  | [] => sub.isEmpty
  | c :: rest => sub.isPrefixOf (c :: rest) || subOccurs sub rest

/-- Python `s.strip()`: whitespace removed from both ends. -/
def trimChars (s : Str) : Str :=
  ((s.dropWhile Char.isWhitespace).reverse.dropWhile Char.isWhitespace).reverse

/-- src/ml/detectors.py `Finding` dataclass (confidence as exact `ℚ`). -/
structure Finding where
  type : String
  confidence : ℚ
  evidence : Str
  masked_value : Str
deriving DecidableEq

/-- src/ml/detectors.py lines 19-24, `mask_secret` with its default
`keep_prefix = keep_suffix = 4` (the only way the repository calls it):
values of length `≤ 4 + 4 + 2` keep only the first and last character,
longer values keep the first 4 and last 4 characters around an ellipsis. -/
def mask_secret (s : Str) : Str :=
  if s.length ≤ 10 then
    s.take 1 ++ ['…'] ++ s.drop (s.length - 1)
  else
    s.take 4 ++ ['…'] ++ s.drop (s.length - 4)

/-- src/ml/detectors.py lines 30-34: credential-context keywords. -/
def CONTEXT_KEYWORDS : List Str :=
  [ "password".data, "passwd".data, "pwd".data, "token".data, "api key".data,
    "apikey".data, "secret".data, "auth".data, "authorization".data,
    "credential".data, "creds".data, "bearer".data, "key=".data ]

/-- src/ml/detectors.py lines 26-35, `context_has_keywords` with the default
`window = 40`: lowercase the `±40`-char window around `[start, stop)` and
look for any credential keyword. -/
def context_has_keywords (text : Str) (start stop : Nat) : Bool :=
  let left := start - 40
  let right := min text.length (stop + 40)
  let chunk := lowerStr ((text.drop left).take (right - left))
  CONTEXT_KEYWORDS.any (fun k => subOccurs k chunk)

/-- src/ml/detectors.py lines 73-81: base confidence per finding type,
0.60 for unlisted types. -/
def base_conf (ftype : String) : ℚ :=
  if ftype = "PRIVATE_KEY_BLOCK" then 95/100
  else if ftype = "AWS_ACCESS_KEY_ID" then 85/100
  else if ftype = "GITHUB_TOKEN" then 85/100
  else if ftype = "JWT" then 70/100
  else if ftype = "CONNECTION_STRING" then 80/100
  else if ftype = "AUTH_HEADER" then 75/100
  else if ftype = "PASSWORD_ASSIGNMENT" then 65/100
  else 60/100

/-- One regex match as handed to the body of the `pat.finditer(text)` loop in
src/ml/detectors.py lines 59-68: the finding type of the pattern, the span
`[start, stop)` of the match in the text, and the sensitive sub-value the
code extracts (group 2 for `PASSWORD_ASSIGNMENT`, group 1 for `AUTH_HEADER`,
the whole match for every other pattern). The regex engine itself is the
external input; everything computed from a match is embedded. -/
structure RawMatch where
  ftype : String
  value : Str
  start : Nat
  stop : Nat
deriving DecidableEq

/-- src/ml/detectors.py lines 59-103, the body of the match loop: confidence
adjustment from context keywords and from the Shannon entropy of the value
(`ent` is the real-valued `shannon_entropy`, passed as an oracle since only
the comparisons `ent ≥ 3.5` / `ent < 2.8` matter), clamping to `[0,1]`,
evidence window with newlines collapsed and truncated to 240 chars, and the
masked value. -/
def finding_of_match (text : Str) (ent : Str → ℚ) (m : RawMatch) : Finding :=
  let e := ent m.value
  let has_ctx := context_has_keywords text m.start m.stop
  let base := base_conf m.ftype
  let conf1 := if has_ctx then base + 1/10 else base
  let conf2 :=
    if 12 ≤ m.value.length then
      if 7/2 ≤ e then conf1 + 1/10
      else if e < 14/5 then conf1 - 1/10
      else conf1
    else conf1
  let conf := max 0 (min 1 conf2)
  let snippet_left := m.start - 40
  let snippet_right := min text.length (m.stop + 40)
  let evidence :=
    ((text.drop snippet_left).take (snippet_right - snippet_left)).map
      (fun c => if c = '\n' then ' ' else c)
  { type := m.ftype, confidence := conf,
    evidence := evidence.take 240, masked_value := mask_secret m.value }

/-- src/ml/detectors.py line 108: the dedup key `(type, masked_value,
evidence[:60])`. -/
def finding_key (f : Finding) : String × Str × Str :=
  (f.type, f.masked_value, f.evidence.take 60)

/-- src/ml/detectors.py lines 105-112: keep the first finding for each key. -/
def dedup_findings (seen : List (String × Str × Str)) :
    List Finding → List Finding
  | [] => []
  | f :: rest =>
    if finding_key f ∈ seen then dedup_findings seen rest
    else f :: dedup_findings (finding_key f :: seen) rest

/-- src/ml/detectors.py lines 54-112, `leak_detector`, parametrised by the
regex match list and the entropy oracle: empty text short-circuits to `[]`
(line 56-57), otherwise every match becomes a `Finding` and the list is
deduplicated by `(type, masked_value, evidence[:60])`. -/
def leak_detector (text : Str) (ent : Str → ℚ) (ms : List RawMatch) :
    List Finding :=
  if text.isEmpty then []
  else dedup_findings [] (ms.map (finding_of_match text ent))

/-- Minimum length of the extracted sensitive value guaranteed by each regex
of `LEAK_PATTERNS` (src/ml/detectors.py lines 37-45), for the value extracted
at lines 61-68:
  * `AWS_ACCESS_KEY_ID`: `AKIA` + 16 chars = 20;
  * `GITHUB_TOKEN`: `ghp_` + at least 30 chars = 34;
  * `JWT`: `eyJ` + 10 + `.` + 10 + `.` + 10 = 35 at least;
  * `PRIVATE_KEY_BLOCK`: the two armour lines alone are 27 + 25 chars
    around at least one body char = 53 at least;
  * `PASSWORD_ASSIGNMENT`: group 2 is `[^\s'";]{6,}` = 6 at least;
  * `AUTH_HEADER`: group 1 is `[A-Za-z0-9._\-]{10,}` = 10 at least;
  * `CONNECTION_STRING`: shortest scheme `mysql` + `://` + 1 char = 9 at
    least. -/
def LEAK_VALUE_MIN_LEN : List (String × Nat) :=
  [ ("AWS_ACCESS_KEY_ID", 20), ("GITHUB_TOKEN", 34), ("JWT", 35),
    ("PRIVATE_KEY_BLOCK", 53), ("PASSWORD_ASSIGNMENT", 6),
    ("AUTH_HEADER", 10), ("CONNECTION_STRING", 9) ]

/-- A match is one a pattern of `LEAK_PATTERNS` can actually produce: its
type is one of the seven pattern types and its extracted value respects that
pattern's guaranteed minimum length. -/
def leak_value_min_ok (ftype : String) (v : Str) : Bool :=
  LEAK_VALUE_MIN_LEN.any (fun p => p.1 = ftype && p.2 ≤ v.length)

/-- src/ml/pipeline.py lines 16-24: severity weight per finding type. -/
def SEVERITY_WEIGHTS : List (String × ℚ) :=
  [ ("PRIVATE_KEY_BLOCK", 45), ("CONNECTION_STRING", 30),
    ("AWS_ACCESS_KEY_ID", 26), ("GITHUB_TOKEN", 26), ("JWT", 20),
    ("AUTH_HEADER", 20), ("PASSWORD_ASSIGNMENT", 16) ]

/-- src/ml/pipeline.py lines 26-36: sector impact weights. -/
def SECTOR_IMPACT : List (String × ℚ) :=
  [ ("power_grid", 22), ("telecom", 20), ("banking", 20), ("upi", 20),
    ("airport", 16), ("ports", 16), ("railways", 15), ("oil", 15),
    ("other", 8) ]

/-- src/ml/pipeline.py lines 38-44: intent boost weights. -/
def INTENT_BOOST : List (String × ℚ) :=
  [ ("planning", 14), ("claim", 12), ("leak", 14), ("discussion", 6),
    ("irrelevant", 0) ]

/-- Python `dict.get(k, d)` over an association-list rendering of a dict. -/
def lookupD (tbl : List (String × ℚ)) (k : String) (d : ℚ) : ℚ :=
  match tbl.find? (fun p => p.1 = k) with
  | some p => p.2
  | none => d

/-- src/ml/pipeline.py lines 46-51: attack keywords. -/
def ATTACK_KEYWORDS : List Str :=
  [ "ddos".data, "ransomware".data, "exploit".data, "breach".data,
    "leak".data, "dump".data, "access".data, "creds".data,
    "credential".data, "password".data, "token".data, "key".data,
    "botnet".data, "sell".data, "selling".data, "for sale".data,
    "pwn".data, "owned".data, "cve".data, "0day".data, "zero day".data,
    "vulnerability".data, "attack".data ]

/-- src/ml/pipeline.py lines 53-62: per-sector keyword hints, in the
dict's insertion order (the order `sector_override` iterates). -/
def SECTOR_HINTS : List (String × List Str) :=
  [ ("banking", [ "bank".data, "banking".data, "swift".data, "atm".data ]),
    ("upi", [ "upi".data, "npci".data, "payment gateway".data,
              "upi gateway".data ]),
    ("railways", [ "rail".data, "railways".data, "irctc".data,
                   "train".data ]),
    ("power_grid", [ "power grid".data, "grid".data, "substation".data,
                     "scada".data, "electric".data ]),
    ("telecom", [ "telecom".data, "telco".data, "sim swap".data,
                  "tower".data, "5g".data, "lte".data ]),
    ("airport", [ "airport".data, "aviation".data, "airline".data ]),
    ("ports", [ "port".data, "ports".data, "harbor".data, "harbour".data,
                "container terminal".data ]),
    ("oil", [ "oil".data, "refinery".data, "pipeline".data,
              "gas plant".data, "petroleum".data ]) ]

/-- src/ml/pipeline.py lines 65-66, `clamp` at its only call site
(`clamp(score)`, so `lo = 0`, `hi = 100`). -/
def clamp (x : ℚ) : ℚ := max 0 (min 100 x)

/-- src/ml/pipeline.py lines 69-71: number of keywords occurring in the
lowercased text. -/
def keyword_hits (text : Str) (keywords : List Str) : Nat :=
  (keywords.filter (fun k => subOccurs k (lowerStr text))).length

/-- Hits of one sector's hint list in an already-lowercased text
(src/ml/pipeline.py line 83). -/
def hint_hits (hints : List Str) (t : Str) : Nat :=
  (hints.filter (fun h => subOccurs h t)).length

/-- One step of the best-sector loop of src/ml/pipeline.py lines 82-86:
update `(best, best_hits)` only on strictly more hits. -/
def override_step (t : Str) (acc : Option String × Nat)
    (p : String × List Str) : Option String × Nat :=
  if acc.2 < hint_hits p.2 t then (some p.1, hint_hits p.2 t) else acc

/-- src/ml/pipeline.py lines 78-87, `sector_override`: scan the hint table
in order, keeping the first sector whose hit count strictly exceeds the
running best; `(none, 0)` when no sector has any hit. -/
def sector_override (text : Str) : Option String × Nat :=
  SECTOR_HINTS.foldl (override_step (lowerStr text)) (none, 0)

/-- src/ml/pipeline.py lines 214-218 of `build_alert`: the override replaces
the classifier's sector when it exists, has at least one hit and differs
from the classifier's label, and then the confidence becomes
`max(confidence, 0.75)`. -/
def apply_sector_override (text : Str) (sector_label : String)
    (sector_conf : ℚ) : String × ℚ :=
  match sector_override text with
  | (some ovr, hits) =>
    if 1 ≤ hits ∧ ovr ≠ sector_label then (ovr, max sector_conf (3/4))
    else (sector_label, sector_conf)
  | (none, _) => (sector_label, sector_conf)

/-- src/ml/cve_enricher.py: one enriched CVE record, `cvss` being the
rounded `random.uniform(6.0, 9.8)` draw. -/
structure EnrichedCVE where
  id : String
  cvss : ℚ
  severity : String
deriving DecidableEq

/-- src/ml/cve_enricher.py lines 4-12, `enrich_cves`, with the global
`random` generator modelled as an explicit stream: draw `i` supplies the
(rounded) `random.uniform(6.0, 9.8)` value and the outcome of
`random.random() > 0.6` for the `i`-th CVE id. -/
def enrich_cves (rng : Nat → ℚ × Bool) (cves : List String) :
    List EnrichedCVE :=
  (List.range cves.length).zip cves |>.map fun p =>
    { id := p.2, cvss := (rng p.1).1,
      severity := if (rng p.1).2 then "critical" else "high" }

/-- The `ioc_counts` dict built in src/ml/pipeline.py lines 236-241. -/
structure IocCounts where
  ips : Nat
  domains : Nat
  emails : Nat
  cves : Nat
deriving DecidableEq

/-- One entry of the ordered `reasons` list of `score_threat`
(src/ml/pipeline.py lines 103-163): one constructor per formatted reason
string of the source, carrying the quantities the string cites. -/
inductive Reason where
  | leakSignal (ftype : String) (w : ℚ)
  | evidenceConf (cred : ℚ)
  | intent (label : String) (part : ℚ)
  | sectorImpact (label : String) (part : ℚ)
  | vulnRisk (part : ℚ)
  | securityKeywords
  | attackDensity (bonus : ℚ)
  | cveDetected (maxCvss boost : ℚ)
  | iocsPresent (total : Nat) (boost : ℚ)
  | classifiedNoise
deriving DecidableEq

/-- The result dict of `score_threat` (src/ml/pipeline.py line 165). -/
structure Scored where
  score : ℚ
  reasons : List Reason
deriving DecidableEq

/-- Python `max(findings, key=lambda f: f.confidence)`: the first finding of
maximal confidence (later elements replace the best only on strictly larger
confidence). -/
def max_by_conf (best : Finding) : List Finding → Finding
  | [] => best
  | f :: rest =>
    max_by_conf (if best.confidence < f.confidence then f else best) rest

/-- src/ml/pipeline.py lines 117-163: every `score_threat` contribution
after the leak signal, in source order — intent, sector, vulnerability
risk, security keywords, attack-keyword density, CVE severity, IOC
density — as (total, reasons) before the final clamp. -/
def score_rest (intent_label : String) (intent_conf : ℚ)
    (sector_label : String) (sector_conf : ℚ) (vuln_risk : Option ℚ)
    (security_like : Bool) (attack_kw_hits : Nat)
    (cve_data : List EnrichedCVE) (ioc : IocCounts) : ℚ × List Reason :=
  let intent_part := lookupD INTENT_BOOST intent_label 0 * intent_conf
  let sector_part := lookupD SECTOR_IMPACT sector_label 8 * sector_conf
  let vuln :=
    match vuln_risk with
    | none => ((0 : ℚ), ([] : List Reason))
    | some vr =>
      let vuln_part := min 30 (vr / 100 * 30)
      (vuln_part, [Reason.vulnRisk vuln_part])
  let sec :=
    if security_like then ((6 : ℚ), [Reason.securityKeywords])
    else (0, [])
  let dens :=
    if 2 ≤ attack_kw_hits then
      let bonus := min 12 (4 * (attack_kw_hits : ℚ))
      (bonus, [Reason.attackDensity bonus])
    else (0, [])
  let cve :=
    match cve_data with
    | [] => ((0 : ℚ), ([] : List Reason))
    | c :: rest =>
      let max_cvss := rest.foldl (fun a (d : EnrichedCVE) => max a d.cvss) c.cvss
      if 0 < max_cvss then
        let boost := min 18 (max_cvss * (9/5))
        (boost, [Reason.cveDetected max_cvss boost])
      else (0, [])
  let ioc_total := ioc.ips + ioc.domains + ioc.emails
  let iocr :=
    if 2 ≤ ioc_total then
      let boost := min 10 (3 * (ioc_total : ℚ))
      (boost, [Reason.iocsPresent ioc_total boost])
    else ((0 : ℚ), ([] : List Reason))
  (intent_part + sector_part + vuln.1 + sec.1 + dens.1 + cve.1 + iocr.1,
   [Reason.intent intent_label intent_part,
    Reason.sectorImpact sector_label sector_part]
     ++ vuln.2 ++ sec.2 ++ dens.2 ++ cve.2 ++ iocr.2)

/-- src/ml/pipeline.py lines 90-165, `score_threat`: the leak contribution
(severity weight of the single highest-confidence finding, default 12, plus
`25 ×` its confidence) followed by the remaining contributions, the total
clamped to `[0, 100]` once at the end, the reasons in application order. -/
def score_threat (intent_label : String) (intent_conf : ℚ)
    (sector_label : String) (sector_conf : ℚ) (findings : List Finding)
    (vuln_risk : Option ℚ) (security_like : Bool) (attack_kw_hits : Nat)
    (cve_data : List EnrichedCVE) (ioc : IocCounts) : Scored :=
  let leak :=
    match findings with
    | [] => ((0 : ℚ), ([] : List Reason))
    | f :: fs =>
      let top := max_by_conf f fs
      let w := lookupD SEVERITY_WEIGHTS top.type 12
      let cred := 25 * top.confidence
      (w + cred, [Reason.leakSignal top.type w, Reason.evidenceConf cred])
  let rest := score_rest intent_label intent_conf sector_label sector_conf
    vuln_risk security_like attack_kw_hits cve_data ioc
  { score := clamp (leak.1 + rest.1), reasons := leak.2 ++ rest.2 }

/-- src/ml/pipeline.py lines 220-231 of `build_alert`: the category
decision tree followed by the irrelevant-intent override. -/
def category_decision (hasFindings vulnSupplied security_like : Bool)
    (intent_label : String) (intent_conf : ℚ) : String :=
  let category :=
    if hasFindings then "leak"
    else if vulnSupplied then "vulnerability"
    else if !security_like && intent_conf < 9/20 then "noise"
    else if intent_label = "planning" || intent_label = "claim" then
      "attack_chatter"
    else "discussion"
  if intent_label = "irrelevant" && 11/20 ≤ intent_conf && !hasFindings then
    "noise"
  else category

/-- The fields of the final alert dict the verified claims are about
(src/ml/pipeline.py lines 260-281). -/
structure AlertCore where
  category : String
  sector : String
  sector_conf : ℚ
  score : ℚ
  reasons : List Reason
deriving DecidableEq

/-- src/ml/pipeline.py lines 211-266 of `build_alert`, downstream of the
model predictions and detector outputs (which arrive as parameters:
`intent_label`/`intent_conf` and `sector_label`/`sector_conf` from
`models.predict_all`, `findings` from `leak_detector`, `vuln_risk` as the
predicted score when vulnerability features were supplied and `none`
otherwise, `cve_data` from `enrich_cves`, `ioc` the extracted IOC counts):
attack-keyword counting, the sector override, the category decision, the
composite score, and the noise cap `min(score, 3.0)` with its prepended
reason. -/
def build_alert_core (text : Str) (intent_label : String) (intent_conf : ℚ)
    (sector_label : String) (sector_conf : ℚ) (findings : List Finding)
    (vuln_risk : Option ℚ) (cve_data : List EnrichedCVE) (ioc : IocCounts) :
    AlertCore :=
  let attack_hits := keyword_hits text ATTACK_KEYWORDS
  let security_like := 0 < attack_hits
  let sec := apply_sector_override text sector_label sector_conf
  let category := category_decision (!findings.isEmpty) vuln_risk.isSome
    security_like intent_label intent_conf
  let scored := score_threat intent_label intent_conf sec.1 sec.2 findings
    vuln_risk security_like attack_hits cve_data ioc
  if category = "noise" then
    { category := category, sector := sec.1, sector_conf := sec.2,
      score := min scored.score 3,
      reasons := Reason.classifiedNoise :: scored.reasons }
  else
    { category := category, sector := sec.1, sector_conf := sec.2,
      score := scored.score, reasons := scored.reasons }

/-- src/ml/pipeline.py line 191 plus the assembly above: the enriched CVE
data is `enrich_cves` of the extracted CVE ids when that list is nonempty
and `[]` otherwise, with the random stream `rng` made explicit. -/
def build_alert_rng (rng : Nat → ℚ × Bool) (text : Str)
    (intent_label : String) (intent_conf : ℚ) (sector_label : String)
    (sector_conf : ℚ) (findings : List Finding) (vuln_risk : Option ℚ)
    (cves : List String) (ioc : IocCounts) : AlertCore :=
  let cve_data := if cves.isEmpty then [] else enrich_cves rng cves
  build_alert_core text intent_label intent_conf sector_label sector_conf
    findings vuln_risk cve_data ioc

/-- src/ml/infer.py lines 203-210, `NorthStarModels._predict_top_sectors`
downstream of `_predict_single_label`: `all_pairs` is the label/probability
list already sorted by descending probability, and the function returns its
first `max(1, top_k)` entries (`all_pairs[:max(1, top_k)]`), nothing else. -/
def predict_top_sectors (all_pairs : List (String × ℚ)) (top_k : Nat) :
    List (String × ℚ) :=
  all_pairs.take (max 1 top_k)

/-- Modelled from the spec: the sector-selection rule §4.1 of the spec says
`_predict_top_sectors` should implement — apply a confidence threshold of
0.35; drop the generic "other" whenever any non-generic sector clears the
threshold; return the top survivor plus, when more are requested, further
survivors within a 0.10 margin of the top score up to the requested count;
and fall back to the single highest-scoring candidate when nothing clears
the threshold. Stated only to be compared with `predict_top_sectors`. -/
def predict_top_sectors_spec (all_pairs : List (String × ℚ)) (top_k : Nat) :
    List (String × ℚ) :=
  let above := all_pairs.filter (fun p => 7/20 ≤ p.2)
  let cand :=
    if above.any (fun p => p.1 ≠ "other") then
      above.filter (fun p => p.1 ≠ "other")
    else above
  match cand with
  | [] => all_pairs.take 1
  | top :: rest =>
    top :: (rest.filter (fun p => top.2 - p.2 ≤ 1/10)).take (top_k - 1)

/-- Modelled from the spec: the category decision tree exactly as the spec
(§4.7) and claim C3 word it, to be compared with `category_decision`. -/
def category_spec_tree (hasFindings vulnSupplied attackKw : Bool)
    (intent_label : String) (intent_conf : ℚ) : String :=
  if intent_label = "irrelevant" ∧ 11/20 ≤ intent_conf ∧ ¬hasFindings then
    "noise"
  else if hasFindings then "leak"
  else if vulnSupplied then "vulnerability"
  else if ¬attackKw ∧ intent_conf < 9/20 then "noise"
  else if intent_label = "planning" ∨ intent_label = "claim" then
    "attack_chatter"
  else "discussion"

/-- A row of the `post` table (src/backend/app/models.py lines 31-39). -/
structure PostRec where
  id : Nat
  source : Str
  url : Str
  title : Option Str
  author : Option Str
  created_at : Option Str
  text : Str
  hash : Str
deriving DecidableEq

/-- A row of the `alert` table, reduced to the fields the ingestion claim is
about: its id, the post it belongs to, and the pipeline payload. -/
structure AlertRec where
  id : Nat
  post_id : Nat
  payload : AlertCore
deriving DecidableEq

/-- The external store as the ingestion gate sees it: the post and alert
tables in insertion order plus the next auto-increment ids. The `Finding`
and `Entity` rows `upsert_post_and_alert` also persists for a new post are
elided: no claim concerns them and they influence neither the returned ids
nor the dedup. -/
structure StoreState where
  posts : List PostRec
  alerts : List AlertRec
  nextPostId : Nat
  nextAlertId : Nat
deriving DecidableEq

/-- src/backend/app/pipeline_store.py lines 9-12, `_hash`: the content hash
of `source || "||" || url || "||" || text.strip()`. The sha256 digest is
modelled by the digested string itself: the claims depend only on the
digest being a deterministic function of its input (plus the standard
collision-freeness assumption the code makes, which the identity model
renders exact). -/
def content_hash (source url text : Str) : Str :=
  source ++ "||".data ++ url ++ "||".data ++ trimChars text

/-- src/backend/app/pipeline_store.py line 29: `first` of the alerts of a
post ordered by descending id, as the id of the maximal-id alert with that
`post_id`, or the sentinel `-1` when the post has no alert (line 30). -/
def latestAlertId (alerts : List AlertRec) (pid : Nat) : Int :=
  match alerts.filter (fun a => a.post_id = pid) with
  | [] => -1
  | a :: rest =>
    ((rest.foldl (fun b x => if b.id < x.id then x else b) a).id : Int)

/-- src/backend/app/pipeline_store.py lines 14-86, `upsert_post_and_alert`:
compute the content hash; when a post with that hash exists, return its id
and its latest alert id (sentinel `-1` if none) leaving the store untouched
and never invoking the pipeline; otherwise persist a new post, run the
pipeline (`build_alert`, here the abstract parameter `pipe` since the claim
quantifies over it) and persist and return the new alert. -/
def upsert_post_and_alert (pipe : Str → AlertCore) (s : StoreState)
    (source url : Str) (title author created_at : Option Str) (text : Str) :
    StoreState × Nat × Int :=
  let h := content_hash source url text
  match s.posts.find? (fun p => p.hash == h) with
  | some p => (s, p.id, latestAlertId s.alerts p.id)
  | none =>
    let pid := s.nextPostId
    let post : PostRec :=
      { id := pid, source := source, url := url, title := title,
        author := author, created_at := created_at, text := text, hash := h }
    let payload := pipe text
    let aid := s.nextAlertId
    let s2 : StoreState :=
      { posts := s.posts ++ [post],
        alerts := s.alerts ++ [{ id := aid, post_id := pid,
                                 payload := payload }],
        nextPostId := pid + 1, nextAlertId := aid + 1 }
    (s2, pid, (aid : Int))

/-- The store invariant the schema guarantees and ingestion preserves:
every alert row references a post id below the next free post id. -/
def StoreWF (s : StoreState) : Prop :=
  ∀ a ∈ s.alerts, a.post_id < s.nextPostId

/-! ## Helper lemmas -/

lemma mask_secret_length_lt (s : Str) (h : 4 ≤ s.length) :
    (mask_secret s).length < s.length := by
  unfold mask_secret
  split <;>
    simp only [List.length_append, List.length_take, List.length_drop,
      List.length_cons, List.length_nil] <;>
    omega

lemma mask_secret_ne_of_len (s : Str) (h : 4 ≤ s.length) :
    mask_secret s ≠ s := by
  intro hc
  have hl := mask_secret_length_lt s h
  rw [hc] at hl
  exact lt_irrefl _ hl

lemma category_decision_eq_spec (hf vs sl : Bool) (il : String) (ic : ℚ) :
    category_decision hf vs sl il ic = category_spec_tree hf vs sl il ic := by
  unfold category_decision category_spec_tree
  cases hf <;> cases vs <;> cases sl <;>
    simp only [Bool.not_false, Bool.not_true, Bool.true_and, Bool.false_and,
      Bool.and_true, Bool.and_false, Bool.true_or, Bool.false_or,
      not_true, not_false_iff] <;>
    split_ifs <;> simp_all

/-! ## C8 — secret masking -/

/-- C8 counterexample: the claim says every detected value of length ≥ 10
keeps its first 4 and last 4 characters around an ellipsis, but at length
exactly 10 `mask_secret` takes the short branch (`len ≤ 4+4+2`) and keeps
only the first and last character. -/
theorem C8_counterexample :
    ("ABCDEFGHIJ".data).length = 10 ∧
    mask_secret "ABCDEFGHIJ".data = "A…J".data ∧
    mask_secret "ABCDEFGHIJ".data ≠ "ABCD…GHIJ".data := by decide

/-- C8 amended: values of length ≥ 11 keep exactly the first 4 and last 4
characters separated by an ellipsis and the mask never equals the full
secret; values of length ≤ 10 keep only the first and last character; and
for any value of length ≥ 10 the mask never equals the full secret. -/
theorem C8_mask_amended (s : Str) :
    (11 ≤ s.length →
      mask_secret s = s.take 4 ++ ['…'] ++ s.drop (s.length - 4) ∧
      mask_secret s ≠ s) ∧
    (s.length ≤ 10 →
      mask_secret s = s.take 1 ++ ['…'] ++ s.drop (s.length - 1)) ∧
    (10 ≤ s.length → mask_secret s ≠ s) := by
  refine ⟨fun h => ⟨?_, ?_⟩, fun h => ?_, fun h => ?_⟩
  · unfold mask_secret
    rw [if_neg (by omega)]
  · exact mask_secret_ne_of_len s (by omega)
  · unfold mask_secret
    rw [if_pos h]
  · exact mask_secret_ne_of_len s (by omega)

/-- C8 witness: the amended statement evaluated on the spec's own example
key (length 20) and on a length-10 value. -/
theorem C8_mask_amended_witness :
    (11 ≤ ("AKIA1234567890ABCD12".data).length ∧
      mask_secret "AKIA1234567890ABCD12".data = "AKIA…CD12".data ∧
      mask_secret "AKIA1234567890ABCD12".data ≠ "AKIA1234567890ABCD12".data) ∧
    (("ABCDEFGHIJ".data).length ≤ 10 ∧
      mask_secret "ABCDEFGHIJ".data = "A…J".data) := by
  refine ⟨⟨by decide, ?_, ?_⟩, by decide, ?_⟩
  · have h := (C8_mask_amended "AKIA1234567890ABCD12".data).1 (by decide)
    rw [h.1]; decide
  · exact (C8_mask_amended "AKIA1234567890ABCD12".data).1 (by decide) |>.2
  · have h := (C8_mask_amended "ABCDEFGHIJ".data).2.1 (by decide)
    rw [h]; decide

/-! ## C3 — category decision tree -/

/-- C3: the category produced by the alert assembly is exactly the spec's
decision tree — findings force `leak`; else supplied vulnerability features
force `vulnerability`; else no attack keyword and intent confidence < 0.45
gives `noise`; else `attack_chatter` for planning/claim intent and
`discussion` otherwise; and an `irrelevant` intent with confidence ≥ 0.55
and no findings forces `noise` over every earlier branch, the vulnerability
branch included. -/
theorem C3_category_decision_tree (text : Str) (intent_label : String)
    (intent_conf : ℚ) (sector_label : String) (sector_conf : ℚ)
    (findings : List Finding) (vuln_risk : Option ℚ)
    (cve_data : List EnrichedCVE) (ioc : IocCounts) :
    (build_alert_core text intent_label intent_conf sector_label sector_conf
        findings vuln_risk cve_data ioc).category =
      category_spec_tree (!findings.isEmpty) vuln_risk.isSome
        (decide (0 < keyword_hits text ATTACK_KEYWORDS)) intent_label
        intent_conf := by
  rw [← category_decision_eq_spec]
  unfold build_alert_core
  dsimp only
  split <;> rfl

/-! ## C5 — top-sector selection -/

/-- C5 counterexample: with the sorted distribution
`[("other", 0.9), ("banking", 0.5)]` the claim's rule (threshold 0.35, drop
"other" when a non-generic sector clears it) would return `banking`, but
the code's `_predict_top_sectors` simply takes the first `max(1, top_k)`
entries and returns `other`; and at the default `top_k = 3` used by
`predict_all` it returns two sectors, not exactly one. -/
theorem C5_counterexample :
    predict_top_sectors [("other", 9/10), ("banking", 1/2)] 1 ≠
      predict_top_sectors_spec [("other", 9/10), ("banking", 1/2)] 1 ∧
    predict_top_sectors [("other", 9/10), ("banking", 1/2)] 1 =
      [("other", 9/10)] ∧
    (predict_top_sectors [("other", 9/10), ("banking", 1/2)] 3).length ≠ 1 := by
  have h1 : predict_top_sectors [("other", 9/10), ("banking", 1/2)] 1 =
      [("other", (9 : ℚ)/10)] := rfl
  have h2 : predict_top_sectors_spec [("other", 9/10), ("banking", 1/2)] 1 =
      [("banking", (1 : ℚ)/2)] := by
    norm_num [predict_top_sectors_spec]
    simp
  have h3 : (predict_top_sectors [("other", 9/10), ("banking", 1/2)] 3).length
      = 2 := rfl
  refine ⟨?_, h1, ?_⟩
  · rw [h1, h2]
    simp
  · rw [h3]
    omega

/-- C5 amended: `_predict_top_sectors` applies no confidence threshold, no
dropping of the generic "other" and no margin rule — it returns exactly the
first `max(1, top_k)` entries of the classifier's probability-sorted
candidate list (a prefix of it, of length `min (max 1 top_k) |candidates|`),
and is nonempty whenever the candidate list is. -/
theorem C5_take_amended (all_pairs : List (String × ℚ)) (top_k : Nat)
    (h : all_pairs ≠ []) :
    predict_top_sectors all_pairs top_k = all_pairs.take (max 1 top_k) ∧
    (predict_top_sectors all_pairs top_k).length =
      min (max 1 top_k) all_pairs.length ∧
    predict_top_sectors all_pairs top_k <+: all_pairs ∧
    predict_top_sectors all_pairs top_k ≠ [] := by
  refine ⟨rfl, ?_, ?_, ?_⟩
  · simp [predict_top_sectors]
  · exact List.take_prefix _ _
  · simp only [predict_top_sectors, ne_eq, List.take_eq_nil_iff]
    push_neg
    exact ⟨by omega, h⟩

/-- C5 witness: the amended statement evaluated at a concrete nonempty
distribution. -/
theorem C5_take_amended_witness :
    predict_top_sectors [("other", (9/10 : ℚ)), ("banking", 1/2)] 1 =
      ([("other", (9/10 : ℚ)), ("banking", 1/2)]).take (max 1 1) ∧
    (predict_top_sectors [("other", (9/10 : ℚ)), ("banking", 1/2)] 1).length =
      min (max 1 1) ([("other", (9/10 : ℚ)), ("banking", 1/2)]).length ∧
    predict_top_sectors [("other", (9/10 : ℚ)), ("banking", 1/2)] 1 <+:
      [("other", (9/10 : ℚ)), ("banking", 1/2)] ∧
    predict_top_sectors [("other", (9/10 : ℚ)), ("banking", 1/2)] 1 ≠ [] :=
  C5_take_amended [("other", 9/10), ("banking", 1/2)] 1 (by decide)

/-! ## C6 — leak contribution of the composite scorer -/

lemma lookupD_cases (tbl : List (String × ℚ)) (k : String) (d : ℚ) :
    lookupD tbl k d = d ∨ ∃ p ∈ tbl, lookupD tbl k d = p.2 := by
  unfold lookupD
  cases h : tbl.find? (fun p => p.1 = k) with
  | none => exact Or.inl rfl
  | some p => exact Or.inr ⟨p, List.mem_of_find?_eq_some h, rfl⟩

/-- C6 counterexample: for a finding whose type is not in
`SEVERITY_WEIGHTS` the scorer adds the default weight 12, not the 15 points
the claim states — with every other signal neutral and the finding's
confidence 0, the score is 12 where the claim predicts 15. -/
theorem C6_counterexample :
    (score_threat "irrelevant" 0 "other" 0
        [{ type := "SLACK_TOKEN", confidence := 0, evidence := [],
           masked_value := [] }]
        none false 0 [] ⟨0, 0, 0, 0⟩).score = 12 ∧
    (12 : ℚ) ≠ 15 := by
  constructor
  · norm_num [score_threat, score_rest, max_by_conf, lookupD, clamp,
      SEVERITY_WEIGHTS, INTENT_BOOST, SECTOR_IMPACT, List.find?]
    simp
    norm_num
  · norm_num

/-- C6 amended: when findings are present only the single
highest-confidence finding contributes — the score gains its type's
severity weight (12 points for a type not in the severity table, up to 45
for private-key blocks) plus `25 ×` the finding's confidence, both
contributions are appended to the reasons list (ahead of all others), and
the result depends on the findings only through that top finding. -/
theorem C6_leak_contribution (il : String) (ic : ℚ) (sl : String) (sc : ℚ)
    (f : Finding) (fs : List Finding) (vr : Option ℚ) (sec : Bool)
    (hits : Nat) (cve : List EnrichedCVE) (ioc : IocCounts) :
    score_threat il ic sl sc (f :: fs) vr sec hits cve ioc =
      { score := clamp (lookupD SEVERITY_WEIGHTS (max_by_conf f fs).type 12 +
          25 * (max_by_conf f fs).confidence +
          (score_rest il ic sl sc vr sec hits cve ioc).1),
        reasons := Reason.leakSignal (max_by_conf f fs).type
            (lookupD SEVERITY_WEIGHTS (max_by_conf f fs).type 12) ::
          Reason.evidenceConf (25 * (max_by_conf f fs).confidence) ::
          (score_rest il ic sl sc vr sec hits cve ioc).2 } ∧
    lookupD SEVERITY_WEIGHTS (max_by_conf f fs).type 12 ≤ 45 ∧
    ((max_by_conf f fs).type = "PRIVATE_KEY_BLOCK" →
      lookupD SEVERITY_WEIGHTS (max_by_conf f fs).type 12 = 45) ∧
    (∀ (g : Finding) (gs : List Finding),
      max_by_conf g gs = max_by_conf f fs →
      score_threat il ic sl sc (g :: gs) vr sec hits cve ioc =
        score_threat il ic sl sc (f :: fs) vr sec hits cve ioc) := by
  refine ⟨rfl, ?_, ?_, ?_⟩
  · rcases lookupD_cases SEVERITY_WEIGHTS (max_by_conf f fs).type 12 with
      h | ⟨p, hp, h⟩
    · rw [h]; norm_num
    · rw [h]
      revert hp
      norm_num [SEVERITY_WEIGHTS]
      rintro (h | h | h | h | h | h | h) <;> subst h <;> norm_num
  · intro h
    rw [h]
    rfl
  · intro g gs h
    simp only [score_threat, h]

/-! ## C2 — score bounds and noise cap -/

lemma clamp_bounds (x : ℚ) : 0 ≤ clamp x ∧ clamp x ≤ 100 :=
  ⟨le_max_left 0 _, max_le (by norm_num) (min_le_left 100 x)⟩

lemma build_alert_core_category (text : Str) (il : String) (ic : ℚ)
    (sl : String) (sc : ℚ) (findings : List Finding) (vr : Option ℚ)
    (cve : List EnrichedCVE) (ioc : IocCounts) :
    (build_alert_core text il ic sl sc findings vr cve ioc).category =
      category_decision (!findings.isEmpty) vr.isSome
        (decide (0 < keyword_hits text ATTACK_KEYWORDS)) il ic := by
  unfold build_alert_core
  dsimp only
  split <;> rfl

/-- C2: for every input the final alert score lies in `[0, 100]`, and when
the decided category is `noise` the score is exactly the scorer's clamped
result capped by `min · 3` — in particular at most 3. -/
theorem C2_score_bounds (text : Str) (il : String) (ic : ℚ) (sl : String)
    (sc : ℚ) (findings : List Finding) (vr : Option ℚ)
    (cve : List EnrichedCVE) (ioc : IocCounts) :
    0 ≤ (build_alert_core text il ic sl sc findings vr cve ioc).score ∧
    (build_alert_core text il ic sl sc findings vr cve ioc).score ≤ 100 ∧
    ((build_alert_core text il ic sl sc findings vr cve ioc).category =
        "noise" →
      (build_alert_core text il ic sl sc findings vr cve ioc).score =
        min (score_threat il ic (apply_sector_override text sl sc).1
          (apply_sector_override text sl sc).2 findings vr
          (decide (0 < keyword_hits text ATTACK_KEYWORDS))
          (keyword_hits text ATTACK_KEYWORDS) cve ioc).score 3 ∧
      (build_alert_core text il ic sl sc findings vr cve ioc).score ≤ 3) := by
  have hb := clamp_bounds
  unfold build_alert_core
  dsimp only
  split
  · refine ⟨le_min (hb _).1 (by norm_num), ?_,
      fun _ => ⟨rfl, min_le_right _ _⟩⟩
    exact le_trans (min_le_left _ _) (hb _).2
  · exact ⟨(hb _).1, (hb _).2, fun h => absurd h (by assumption)⟩

/-- C2 witness: a concrete noise-classified input (empty text, `irrelevant`
intent at confidence 0.6) whose score obeys both bounds and the noise cap. -/
theorem C2_score_bounds_witness :
    (build_alert_core [] "irrelevant" (3/5) "other" (1/2) [] none []
        ⟨0, 0, 0, 0⟩).category = "noise" ∧
    0 ≤ (build_alert_core [] "irrelevant" (3/5) "other" (1/2) [] none []
        ⟨0, 0, 0, 0⟩).score ∧
    (build_alert_core [] "irrelevant" (3/5) "other" (1/2) [] none []
        ⟨0, 0, 0, 0⟩).score ≤ 3 := by
  have hcat : (build_alert_core [] "irrelevant" (3/5) "other" (1/2) [] none
      [] ⟨0, 0, 0, 0⟩).category = "noise" := by
    rw [build_alert_core_category]
    have h0 : keyword_hits [] ATTACK_KEYWORDS = 0 := by decide
    rw [h0]
    norm_num [category_decision]
  have h := C2_score_bounds [] "irrelevant" (3/5) "other" (1/2) [] none []
    ⟨0, 0, 0, 0⟩
  exact ⟨hcat, h.1, (h.2.2 hcat).2⟩

/-! ## C4 — determinism of the composite score -/

set_option maxHeartbeats 1000000 in
/-- C4 counterexample: for the same text `"CVE-2021-44228"` (which contains
a CVE id, so `build_alert` calls the randomised `enrich_cves`), the same
metadata, the same classifier outputs and no vulnerability features, two
different states of the global random generator produce different alerts:
the first draw gives CVSS 6.0 (score 23.8), the second gives CVSS 9.8
(score 30.64) — the score and the reasons differ between the two
invocations, so the pipeline is not deterministic as claimed. -/
theorem C4_counterexample :
    build_alert_rng (fun _ => (6, false)) "CVE-2021-44228".data "discussion"
        (1/2) "other" (1/2) [] none ["CVE-2021-44228"] ⟨0, 0, 0, 1⟩ ≠
      build_alert_rng (fun _ => (49/5, false)) "CVE-2021-44228".data
        "discussion" (1/2) "other" (1/2) [] none ["CVE-2021-44228"]
        ⟨0, 0, 0, 1⟩ := by
  have hk : keyword_hits "CVE-2021-44228".data ATTACK_KEYWORDS = 1 := by
    decide
  have hso : sector_override "CVE-2021-44228".data = (none, 0) := by decide
  have hA : (build_alert_rng (fun _ => (6, false)) "CVE-2021-44228".data
      "discussion" (1/2) "other" (1/2) [] none ["CVE-2021-44228"]
      ⟨0, 0, 0, 1⟩).score = 119/5 := by
    have he : enrich_cves (fun _ => ((6 : ℚ), false)) ["CVE-2021-44228"] =
        [⟨"CVE-2021-44228", 6, "high"⟩] := rfl
    unfold build_alert_rng
    norm_num [he]
    unfold build_alert_core apply_sector_override
    rw [hso]
    dsimp only
    rw [hk]
    norm_num [category_decision, score_threat, score_rest,
      lookupD, clamp, INTENT_BOOST, SECTOR_IMPACT, List.find?]
    simp
    norm_num [min_def, max_def]
  have hB : (build_alert_rng (fun _ => (49/5, false)) "CVE-2021-44228".data
      "discussion" (1/2) "other" (1/2) [] none ["CVE-2021-44228"]
      ⟨0, 0, 0, 1⟩).score = 766/25 := by
    have he : enrich_cves (fun _ => ((49/5 : ℚ), false)) ["CVE-2021-44228"] =
        [⟨"CVE-2021-44228", 49/5, "high"⟩] := rfl
    unfold build_alert_rng
    norm_num [he]
    unfold build_alert_core apply_sector_override
    rw [hso]
    dsimp only
    rw [hk]
    norm_num [category_decision, score_threat, score_rest,
      lookupD, clamp, INTENT_BOOST, SECTOR_IMPACT, List.find?]
    simp
    norm_num [min_def, max_def]
  intro h
  rw [h, hB] at hA
  norm_num at hA

/-- C4 amended: the pipeline is deterministic for every input whose
extracted CVE id list is empty — then the random enricher is never called
and the alert (category, sector, score and reasons) is a function of the
text, the classifier outputs and the detector outputs alone. For inputs
containing CVE ids, the randomised severity draw can change the score and
the reasons (see the counterexample), though never the category. -/
theorem C4_deterministic_without_cves (rng1 rng2 : Nat → ℚ × Bool)
    (text : Str) (il : String) (ic : ℚ) (sl : String) (sc : ℚ)
    (findings : List Finding) (vr : Option ℚ) (cves : List String)
    (ioc : IocCounts) (h : cves = []) :
    build_alert_rng rng1 text il ic sl sc findings vr cves ioc =
      build_alert_rng rng2 text il ic sl sc findings vr cves ioc := by
  subst h
  rfl

/-- C4 witness: two arbitrary distinct random streams give the same alert
on a CVE-free input. -/
theorem C4_deterministic_without_cves_witness :
    build_alert_rng (fun _ => (6, false)) "hello".data "discussion" (1/2)
        "other" (1/2) [] none [] ⟨0, 0, 0, 0⟩ =
      build_alert_rng (fun _ => (49/5, true)) "hello".data "discussion"
        (1/2) "other" (1/2) [] none [] ⟨0, 0, 0, 0⟩ :=
  C4_deterministic_without_cves (fun _ => (6, false)) (fun _ => (49/5, true))
    "hello".data "discussion" (1/2) "other" (1/2) [] none [] ⟨0, 0, 0, 0⟩ rfl

/-! ## C7 — sector override -/

/-- Maximal hint-hit count over a hint table, for reasoning about the
best-sector loop. -/
def max_hint_hits : List (String × List Str) → Str → Nat
  | [], _ => 0
  | p :: rest, t => max (hint_hits p.2 t) (max_hint_hits rest t)

lemma foldl_override_snd (t : Str) (l : List (String × List Str))
    (acc : Option String × Nat) :
    (l.foldl (override_step t) acc).2 = max acc.2 (max_hint_hits l t) := by
  induction l generalizing acc with
  | nil => simp [max_hint_hits]
  | cons p rest ih =>
    rw [List.foldl_cons, ih]
    show max (override_step t acc p).2 (max_hint_hits rest t) =
      max acc.2 (max (hint_hits p.2 t) (max_hint_hits rest t))
    unfold override_step
    split
    · dsimp only
      omega
    · omega

lemma foldl_override_no_update (t : Str) (l : List (String × List Str))
    (acc : Option String × Nat) (h : max_hint_hits l t ≤ acc.2) :
    l.foldl (override_step t) acc = acc := by
  induction l generalizing acc with
  | nil => rfl
  | cons p rest ih =>
    unfold max_hint_hits at h
    rw [List.foldl_cons,
      show override_step t acc p = acc from by
        unfold override_step; rw [if_neg (by omega)]]
    exact ih acc (by omega)

lemma foldl_override_mem (t : Str) (l : List (String × List Str))
    (acc : Option String × Nat) :
    l.foldl (override_step t) acc = acc ∨
    ∃ p ∈ l, l.foldl (override_step t) acc = (some p.1, hint_hits p.2 t) := by
  induction l generalizing acc with
  | nil => exact Or.inl rfl
  | cons p rest ih =>
    rw [List.foldl_cons]
    rcases ih (override_step t acc p) with h | ⟨q, hq, h⟩
    · rw [h]
      unfold override_step
      split
      · exact Or.inr ⟨p, List.mem_cons_self p rest, rfl⟩
      · exact Or.inl rfl
    · exact Or.inr ⟨q, List.mem_cons_of_mem p hq, h⟩

/-- C7 counterexample: in the text `"bank rail"` the sectors `banking` and
`railways` tie at one keyword hit each (and no sector exceeds one hit), so
no sector's hit count strictly exceeds every other's — yet with classifier
sector `other` the code still overrides, to `banking` (the tied sector
listed first in the hint table) with confidence `max(0.5, 0.75) = 0.75`,
where the claim says the classifier's answer is kept on a tie. -/
theorem C7_counterexample :
    hint_hits [ "bank".data, "banking".data, "swift".data, "atm".data ]
        (lowerStr "bank rail".data) = 1 ∧
    hint_hits [ "rail".data, "railways".data, "irctc".data, "train".data ]
        (lowerStr "bank rail".data) = 1 ∧
    (∀ p ∈ SECTOR_HINTS, hint_hits p.2 (lowerStr "bank rail".data) ≤ 1) ∧
    apply_sector_override "bank rail".data "other" (1/2) =
      ("banking", 3/4) := by
  refine ⟨by decide, by decide, by decide, ?_⟩
  have hso : sector_override "bank rail".data = (some "banking", 1) := by
    decide
  unfold apply_sector_override
  rw [hso]
  dsimp only
  rw [if_pos ⟨le_refl 1, by simp⟩]
  norm_num [max_def]

/-- C7 amended: the override replaces the classifier's sector whenever some
hint sector has at least one hit and the loop's winner — a sector attaining
the maximal hit count over the hint table, with ties resolved in favour of
the sector listed first, not by keeping the classifier's answer — differs
from the classifier's label, and then the reported confidence becomes
`max(classifier_confidence, 0.75)`; when no hint sector has any hit the
classifier's sector and confidence are kept unchanged. -/
theorem C7_override_amended (text : Str) (label : String) (conf : ℚ)
    (b : Option String) (n : Nat) (hso : sector_override text = (b, n)) :
    n = max_hint_hits SECTOR_HINTS (lowerStr text) ∧
    (b = none →
      n = 0 ∧ apply_sector_override text label conf = (label, conf)) ∧
    (∀ s, b = some s →
      0 < n ∧
      (∃ hints, (s, hints) ∈ SECTOR_HINTS ∧
        hint_hits hints (lowerStr text) = n) ∧
      apply_sector_override text label conf =
        (if s = label then (label, conf) else (s, max conf (3/4)))) := by
  have hfold : SECTOR_HINTS.foldl (override_step (lowerStr text)) (none, 0)
      = (b, n) := hso
  have hsnd := foldl_override_snd (lowerStr text) SECTOR_HINTS (none, 0)
  rw [hfold] at hsnd
  have hn : n = max_hint_hits SECTOR_HINTS (lowerStr text) := by
    simpa using hsnd
  refine ⟨hn, ?_, ?_⟩
  · intro hb
    subst hb
    rcases foldl_override_mem (lowerStr text) SECTOR_HINTS (none, 0) with
      h | ⟨p, hp, h⟩
    · rw [hfold] at h
      have hn0 : n = 0 := congrArg Prod.snd h
      refine ⟨hn0, ?_⟩
      unfold apply_sector_override
      rw [hso]
    · rw [hfold] at h
      exact absurd (congrArg Prod.fst h) (by simp)
  · intro s hb
    subst hb
    have hpos : 0 < n := by
      by_contra h0
      push_neg at h0
      have hM : max_hint_hits SECTOR_HINTS (lowerStr text) = 0 := by omega
      have hupd := foldl_override_no_update (lowerStr text) SECTOR_HINTS
        (none, 0) (by rw [hM])
      rw [hfold] at hupd
      exact absurd (congrArg Prod.fst hupd) (by simp)
    refine ⟨hpos, ?_, ?_⟩
    · rcases foldl_override_mem (lowerStr text) SECTOR_HINTS (none, 0) with
        h | ⟨p, hp, h⟩
      · rw [hfold] at h
        exact absurd (congrArg Prod.fst h) (by simp)
      · rw [hfold] at h
        have h1 : some s = some p.1 := congrArg Prod.fst h
        have h2 : n = hint_hits p.2 (lowerStr text) := congrArg Prod.snd h
        have hs : s = p.1 := by injection h1
        refine ⟨p.2, ?_, h2.symm⟩
        rw [hs]
        exact hp
    · unfold apply_sector_override
      rw [hso]
      dsimp only
      by_cases hsl : s = label
      · rw [if_pos hsl, if_neg]
        simp [hsl]
      · rw [if_neg hsl, if_pos ⟨by omega, hsl⟩]

/-- C7 witness: the amended characterisation evaluated on the tied text
`"bank rail"` with classifier sector `other` at confidence 0.5. -/
theorem C7_override_amended_witness :
    1 = max_hint_hits SECTOR_HINTS (lowerStr "bank rail".data) ∧
    (some "banking" = none →
      1 = 0 ∧ apply_sector_override "bank rail".data "other" (1/2) =
        ("other", (1/2 : ℚ))) ∧
    (∀ s, some "banking" = some s →
      0 < 1 ∧
      (∃ hints, (s, hints) ∈ SECTOR_HINTS ∧
        hint_hits hints (lowerStr "bank rail".data) = 1) ∧
      apply_sector_override "bank rail".data "other" (1/2) =
        (if s = "other" then ("other", (1/2 : ℚ))
         else (s, max (1/2) (3/4)))) :=
  C7_override_amended "bank rail".data "other" (1/2) (some "banking") 1
    (by decide)

/-! ## C9 — dedup of findings -/

lemma dedup_findings_count (l : List Finding)
    (seen : List (String × Str × Str)) (k : String × Str × Str) :
    (dedup_findings seen l).countP (fun f => finding_key f = k) =
      if k ∈ seen then 0
      else min 1 (l.countP (fun f => finding_key f = k)) := by
  induction l generalizing seen with
  | nil => simp [dedup_findings]
  | cons f rest ih =>
    unfold dedup_findings
    by_cases hf : finding_key f ∈ seen
    · rw [if_pos hf, ih, List.countP_cons]
      by_cases hk : k ∈ seen
      · simp [hk]
      · have hne : ¬ (finding_key f = k) := fun h => hk (h ▸ hf)
        simp [hk, hne]
    · rw [if_neg hf, List.countP_cons, List.countP_cons, ih]
      by_cases hk : finding_key f = k
      · subst hk
        rw [if_pos (List.mem_cons_self _ _), if_neg hf]
        simp
      · have hmem : (k ∈ finding_key f :: seen) ↔ k ∈ seen := by
          simp [List.mem_cons, Ne.symm hk]
        rw [if_congr hmem rfl rfl]
        simp [hk]

lemma dedup_findings_sub (l : List Finding)
    (seen : List (String × Str × Str)) :
    ∀ f ∈ dedup_findings seen l, f ∈ l := by
  induction l generalizing seen with
  | nil => simp [dedup_findings]
  | cons g rest ih =>
    unfold dedup_findings
    split
    · exact fun f hf => List.mem_cons_of_mem g (ih seen f hf)
    · intro f hf
      rcases List.mem_cons.mp hf with h | h
      · exact h ▸ List.mem_cons_self g rest
      · exact List.mem_cons_of_mem g (ih _ f h)

/-- C9: findings are deduplicated by `(type, masked_value, evidence[:60])` —
whenever the key of some produced finding occurs among the matches (in
particular when the same secret pattern is matched twice in overlapping
context windows, producing identical keys), exactly one finding with that
key appears in the detector's output, and no key ever appears more than
once. -/
theorem C9_findings_dedup (text : Str) (ent : Str → ℚ) (ms : List RawMatch)
    (k : String × Str × Str) (htext : text.isEmpty = false)
    (hk : k ∈ (ms.map (finding_of_match text ent)).map finding_key) :
    (leak_detector text ent ms).countP (fun f => finding_key f = k) = 1 ∧
    ∀ q, (leak_detector text ent ms).countP (fun f => finding_key f = q)
      ≤ 1 := by
  unfold leak_detector
  simp only [htext, Bool.false_eq_true, if_false]
  constructor
  · rw [dedup_findings_count, if_neg (List.not_mem_nil k)]
    obtain ⟨f, hf, hfk⟩ := List.mem_map.mp hk
    have hpos : 0 < (ms.map (finding_of_match text ent)).countP
        (fun f => finding_key f = k) :=
      List.countP_pos_iff.mpr ⟨f, hf, by simp [hfk]⟩
    omega
  · intro q
    rw [dedup_findings_count, if_neg (List.not_mem_nil q)]
    omega

/-- C9 witness: the same password-assignment secret matched twice over the
same text yields exactly one finding. -/
theorem C9_findings_dedup_witness :
    (leak_detector "password=hunter234".data (fun _ => (3 : ℚ))
        [⟨"PASSWORD_ASSIGNMENT", "hunter234".data, 0, 18⟩,
         ⟨"PASSWORD_ASSIGNMENT", "hunter234".data, 0, 18⟩]).countP
      (fun f => finding_key f =
        finding_key (finding_of_match "password=hunter234".data
          (fun _ => (3 : ℚ))
          ⟨"PASSWORD_ASSIGNMENT", "hunter234".data, 0, 18⟩)) = 1 :=
  (C9_findings_dedup "password=hunter234".data (fun _ => (3 : ℚ))
    [⟨"PASSWORD_ASSIGNMENT", "hunter234".data, 0, 18⟩,
     ⟨"PASSWORD_ASSIGNMENT", "hunter234".data, 0, 18⟩]
    (finding_key (finding_of_match "password=hunter234".data
      (fun _ => (3 : ℚ)) ⟨"PASSWORD_ASSIGNMENT", "hunter234".data, 0, 18⟩))
    rfl (List.mem_cons_self _ _)).1

/-! ## C10 — the mask never equals the extracted secret -/

lemma leak_min_len (ftype : String) (v : Str)
    (h : leak_value_min_ok ftype v = true) : 6 ≤ v.length := by
  simp [leak_value_min_ok, LEAK_VALUE_MIN_LEN] at h
  rcases h with h | h | h | h | h | h | h <;> omega

/-- C10: every finding the leak detector produces from matches the leak
patterns can actually yield (extracted value at least as long as the
pattern guarantees — all seven patterns guarantee ≥ 6 characters) carries a
`masked_value` that is `mask_secret` of the extracted value and never
equals the raw secret itself. -/
theorem C10_mask_never_full_secret (text : Str) (ent : Str → ℚ)
    (ms : List RawMatch)
    (h : ∀ m ∈ ms, leak_value_min_ok m.ftype m.value = true) :
    ∀ f ∈ leak_detector text ent ms, ∃ m ∈ ms,
      f.masked_value = mask_secret m.value ∧ 6 ≤ m.value.length ∧
      mask_secret m.value ≠ m.value := by
  intro f hf
  unfold leak_detector at hf
  by_cases ht : text.isEmpty
  · simp [ht] at hf
  · simp only [ht, Bool.false_eq_true, if_false] at hf
    have hf2 := dedup_findings_sub _ _ f hf
    obtain ⟨m, hm, hfm⟩ := List.mem_map.mp hf2
    have hlen := leak_min_len _ _ (h m hm)
    refine ⟨m, hm, ?_, hlen, mask_secret_ne_of_len _ (by omega)⟩
    rw [← hfm]
    rfl

/-- C10 witness: an AWS access-key match over a concrete text — its finding
masks the key and the mask differs from the raw key. -/
theorem C10_mask_never_full_secret_witness :
    ∃ m ∈ [(⟨"AWS_ACCESS_KEY_ID", "AKIA1234567890ABCD12".data, 4, 24⟩ :
        RawMatch)],
      (finding_of_match "key AKIA1234567890ABCD12".data (fun _ => (3 : ℚ))
          ⟨"AWS_ACCESS_KEY_ID", "AKIA1234567890ABCD12".data, 4,
            24⟩).masked_value = mask_secret m.value ∧
      6 ≤ m.value.length ∧ mask_secret m.value ≠ m.value :=
  C10_mask_never_full_secret "key AKIA1234567890ABCD12".data (fun _ => (3 : ℚ))
    [⟨"AWS_ACCESS_KEY_ID", "AKIA1234567890ABCD12".data, 4, 24⟩]
    (by decide)
    (finding_of_match "key AKIA1234567890ABCD12".data (fun _ => (3 : ℚ))
      ⟨"AWS_ACCESS_KEY_ID", "AKIA1234567890ABCD12".data, 4, 24⟩)
    (List.mem_singleton_self _)

/-! ## C1 — idempotent ingestion -/

/-- C1: ingesting the same `(source, url, text)` triple twice (titles,
authors and timestamps may differ — the content hash ignores them) returns
the same post id both times, leaves the store exactly as after the first
call (so no second post and no second alert is created), and returns the id
of that post's most recent alert (or the sentinel `-1` when it has none) —
all independently of the pipeline function, which the second call never
invokes (`pipe2` is arbitrary). The store need only satisfy the invariant
that every alert references an already-allocated post id. -/
theorem C1_ingest_idempotent (pipe1 pipe2 : Str → AlertCore)
    (s : StoreState) (hwf : StoreWF s) (source url text : Str)
    (t1 a1 c1 t2 a2 c2 : Option Str) :
    upsert_post_and_alert pipe2
        (upsert_post_and_alert pipe1 s source url t1 a1 c1 text).1
        source url t2 a2 c2 text =
      upsert_post_and_alert pipe1 s source url t1 a1 c1 text := by
  cases hfind : s.posts.find?
      (fun p => p.hash == content_hash source url text) with
  | some p =>
    have e1 : upsert_post_and_alert pipe1 s source url t1 a1 c1 text =
        (s, p.id, latestAlertId s.alerts p.id) := by
      unfold upsert_post_and_alert
      dsimp only
      rw [hfind]
    rw [e1]
    unfold upsert_post_and_alert
    dsimp only
    rw [hfind]
  | none =>
    have e1 : upsert_post_and_alert pipe1 s source url t1 a1 c1 text =
        ({ posts := s.posts ++
              [{ id := s.nextPostId, source := source, url := url,
                 title := t1, author := a1, created_at := c1, text := text,
                 hash := content_hash source url text }],
           alerts := s.alerts ++
              [{ id := s.nextAlertId, post_id := s.nextPostId,
                 payload := pipe1 text }],
           nextPostId := s.nextPostId + 1,
           nextAlertId := s.nextAlertId + 1 }, s.nextPostId,
          (s.nextAlertId : Int)) := by
      unfold upsert_post_and_alert
      dsimp only
      rw [hfind]
    rw [e1]
    unfold upsert_post_and_alert
    dsimp only
    rw [List.find?_append, hfind, Option.none_or, List.find?_singleton,
      if_pos (by simp)]
    have hfilter : s.alerts.filter (fun a => a.post_id = s.nextPostId)
        = [] := by
      rw [List.filter_eq_nil_iff]
      intro a ha
      simp only [decide_eq_true_eq]
      exact Nat.ne_of_lt (hwf a ha)
    unfold latestAlertId
    dsimp only
    rw [List.filter_append, hfilter]
    simp [List.filter]

/-- C1 witness: two ingestions of the same triple into an initially empty
store, with two different pipeline functions — the second call changes
nothing and returns the first call's ids. -/
theorem C1_ingest_idempotent_witness :
    upsert_post_and_alert (fun _ => ⟨"leak", "banking", 1, 50, []⟩)
        (upsert_post_and_alert (fun _ => ⟨"noise", "other", 0, 0, []⟩)
          ⟨[], [], 0, 0⟩ "web".data "u".data none none none "hello".data).1
        "web".data "u".data none none none "hello".data =
      upsert_post_and_alert (fun _ => ⟨"noise", "other", 0, 0, []⟩)
        ⟨[], [], 0, 0⟩ "web".data "u".data none none none "hello".data :=
  C1_ingest_idempotent (fun _ => ⟨"noise", "other", 0, 0, []⟩)
    (fun _ => ⟨"leak", "banking", 1, 50, []⟩) ⟨[], [], 0, 0⟩
    (fun a ha => absurd ha (List.not_mem_nil a)) "web".data "u".data
    "hello".data none none none none none none
